import Mathlib

/-!
Verification of the flask-sss server-side session interface
(src/flask_sss/__init__.py) against its natural-language specification.

The Python source is shallowly embedded:
* session payload values become the inductive `PyVal`;
* the session mapping (a werkzeug `CallbackDict`) becomes an insertion
  ordered association list with Python dict update semantics;
* the SQLAlchemy record store becomes a list of records plus an explicit
  effect log recording deletes, adds, updates, commits and cookie
  operations, so that frame properties (zero writes, zero cookie
  operations) are statable;
* `datetime` values become integers (UTC timestamps); the Flask helper
  `get_expiration_time` may return `None` for non-permanent sessions, so
  expiry values are `Option Int`;
* the random id minting functions `make_id` / `make_session_id` are
  modelled by fields holding the value the next call returns (each is
  called at most once per open/save, as in the source);
* the serializer raising on `loads` becomes `Option`; the one uncaught
  exception path in `open_session` (comparing a `None` `expires_at`
  against `datetime.now`, a `TypeError`) makes `openSession` return
  `Option`.
-/

/-- JSON-compatible values stored in a session mapping. -/
inductive PyVal where
  | bool (b : Bool)
  | int (n : Int)
  | str (s : String)
  deriving DecidableEq, Repr

/-- The in-memory session mapping: insertion-ordered association list,
keys are strings (Python `dict` semantics). -/
abbrev Dict := List (String × PyVal)

/-- Python `d[k] = v`: replace in place when the key exists, else append. -/
def dictSet (d : Dict) (k : String) (v : PyVal) : Dict :=
  if d.any (fun p => p.1 = k) then
    d.map (fun p => if p.1 = k then (k, v) else p)
  else
    d ++ [(k, v)]

/-- Python `del d[k]`. -/
def dictDel (d : Dict) (k : String) : Dict :=
  d.filter (fun p => p.1 ≠ k)

/-- Python `d.get(k)`. -/
def dictGet (d : Dict) (k : String) : Option PyVal :=
  (d.find? (fun p => p.1 = k)).map (fun p => p.2)

/-- The `ServerSideSession` class: a `CallbackDict` whose `on_update` callback sets
`modified = True`, plus the `sid` attribute (`__init__`, lines 40-51). -/
structure ServerSideSession where
  sid : String
  contents : Dict
  modified : Bool
  deriving DecidableEq, Repr

/-- Key assignment, `CallbackDict.__setitem__`: the write goes through `on_update`, which
sets `modified = True` (the closure in `ServerSideSession.__init__`). -/
def sessionSet (s : ServerSideSession) (k : String) (v : PyVal) : ServerSideSession :=
  { s with contents := dictSet s.contents k v, modified := true }

/-- Key deletion, `CallbackDict.__delitem__`: fires `on_update`. -/
def sessionDel (s : ServerSideSession) (k : String) : ServerSideSession :=
  { s with contents := dictDel s.contents k, modified := true }

/-- Clearing, `CallbackDict.clear`: fires `on_update`. -/
def sessionClear (s : ServerSideSession) : ServerSideSession :=
  { s with contents := [], modified := true }

/-- Reading, `session[k]` or `session.get(k)`: a read returns the value and leaves
the session (in particular `modified`) untouched. -/
def sessionRead (s : ServerSideSession) (k : String) : Option PyVal × ServerSideSession :=
  (dictGet s.contents k, s)

/-- The constructor `ServerSideSession.__init__(sid, initial, permanent)`.

`super().__init__(initial, on_update)` populates the dict from `initial`
without firing the callback; then `self.sid = sid` and
`self.modified = False` are assigned; finally, when `permanent` is truthy,
`self.permanent = permanent` runs the `SessionMixin.permanent` setter,
which executes `self["_permanent"] = bool(value)` — a `CallbackDict`
write, so it stores the key AND flips `modified` back to `True`. -/
def sessionInit (sid : String) (initial : Option Dict) (permanent : Option Bool) :
    ServerSideSession :=
  let s : ServerSideSession := { sid := sid, contents := initial.getD [], modified := false }
  if permanent.getD false then sessionSet s "_permanent" (PyVal.bool true) else s

/-- One row of the session table. `UserSessionTableProtocol` declares
`id`, `session_id`, `expires_at`, `data`, `user_id`. The extra field
`expiry` models the dynamic Python attribute created by the assignment
`saved_session.expiry = expires` in `save_session` (the source writes to
an attribute that is not a declared column); it starts out `none`. -/
structure SessionRecord where
  id : String
  session_id : String
  expires_at : Option Int
  data : String
  user_id : Option String
  expiry : Option (Option Int)
  deriving DecidableEq, Repr

/-- The record store: the rows of the session table. -/
abbrev Store := List SessionRecord

/-- Lookup, `orm_session.query(model).filter(model.session_id == sid).first()`. -/
def findFirst (store : Store) (sid : String) : Option SessionRecord :=
  store.find? (fun r => r.session_id = sid)

/-- Row deletion, `orm_session.delete(saved_session)`: remove the row with that primary
key. -/
def deleteRecord (store : Store) (recId : String) : Store :=
  store.filter (fun r => r.id ≠ recId)

/-- In-place mutation of the row returned by `first()`: apply `f` to the
first row matching `sid`. -/
def updateFirst (store : Store) (sid : String) (f : SessionRecord → SessionRecord) : Store :=
  match store with
  | [] => []
  | r :: rs => if r.session_id = sid then f r :: rs else r :: updateFirst rs sid f

/-- Observable side effects of the lifecycle manager, in order. -/
inductive Effect where
  | storeDelete (recId : String)
  | storeAdd (rec : SessionRecord)
  | storeUpdate (recId : String)
  | storeCommit
  | setCookie (name : String) (value : String) (expires : Option Int)
      (httponly : Bool) (secure : Bool) (domain : Option String) (path : String)
      (samesite : String)
  | deleteCookie (name : String) (domain : Option String) (path : String)
  deriving DecidableEq, Repr

/-- The serializer contract: `dumps` never raises, `loads` may raise (`none`). -/
structure Serializer where
  dumps : Dict → String
  loads : String → Option Dict

/-- The `SQLAlchemySessionInterface` configuration relevant to the
lifecycle: the `permanent` default, the serializer, and the values the
minting callables `make_id` / `make_session_id` return when next called
(each is called at most once per phase in the source). -/
structure Interface where
  permanent : Option Bool
  serializer : Serializer
  nextId : String
  nextSessionId : String

/-- The ambient Flask application state read by the lifecycle: cookie
configuration, the external helpers `get_expiration_time` and
`should_set_cookie` (Flask `SessionInterface` methods, external
collaborators per the spec), and the current UTC time. -/
structure App where
  sessionCookieName : String
  cookieDomain : Option String
  cookiePath : String
  cookieHttponly : Bool
  cookieSecure : Bool
  samesiteConfig : Option String
  getExpirationTime : ServerSideSession → Option Int
  shouldSetCookie : ServerSideSession → Bool
  now : Int

/-- Result of the open phase: the session handed to the request handler,
the store after any eager expiry deletion, and the effect log. -/
structure OpenResult where
  session : ServerSideSession
  store : Store
  effects : List Effect
  deriving Repr

/-- The open phase, `SQLAlchemySessionInterface.open_session` (lines 75-103).

`cookieVal` is `request.cookies.get(app.session_cookie_name)`; `none`
models an absent cookie, and a present-but-empty value is equally falsy
in `if not sid`. The outer `Option` is `none` exactly when the source
raises an uncaught exception: `saved_session.expires_at <= datetime.now`
is a `TypeError` when the stored `expires_at` is `None`. -/
def openSession (itf : Interface) (app : App) (cookieVal : Option String)
    (store : Store) : Option OpenResult :=
  let sid := cookieVal.getD ""
  if sid = "" then
    some ⟨sessionInit itf.nextSessionId none itf.permanent, store, []⟩
  else
    match findFirst store sid with
    | none => some ⟨sessionInit sid none itf.permanent, store, []⟩
    | some rec =>
      match rec.expires_at with
      | none => none
      | some e =>
        if e ≤ app.now then
          some ⟨sessionInit sid none itf.permanent, deleteRecord store rec.id,
            [Effect.storeDelete rec.id, Effect.storeCommit]⟩
        else
          match itf.serializer.loads rec.data with
          | some data => some ⟨sessionInit sid (some data) none, store, []⟩
          | none => some ⟨sessionInit itf.nextSessionId none itf.permanent, store, []⟩

/-- Result of the save phase: the store after any writes, plus the effect
log (store operations and cookie operations, in order). -/
structure SaveResult where
  store : Store
  effects : List Effect
  deriving Repr

/-- The save phase, `SQLAlchemySessionInterface.save_session` (lines 105-154).

Mirrors the source line by line: the existing-record lookup happens
first; `if not session` is dict emptiness; the update branch assigns
`saved_session.data = val` and `saved_session.expiry = expires` (note:
`expiry`, not the declared column `expires_at`); the insert branch builds
a fresh row; the cookie is set with `samesite` read from configuration
with default `"Strict"`. -/
def saveSession (itf : Interface) (app : App) (session : ServerSideSession)
    (store : Store) : SaveResult :=
  let domain := app.cookieDomain
  let path := app.cookiePath
  let sid := session.sid
  let saved := findFirst store sid
  if session.contents.isEmpty then
    if session.modified then
      match saved with
      | some rec =>
        { store := deleteRecord store rec.id,
          effects := [Effect.storeDelete rec.id, Effect.storeCommit,
            Effect.deleteCookie app.sessionCookieName domain path] }
      | none =>
        { store := store,
          effects := [Effect.deleteCookie app.sessionCookieName domain path] }
    else
      { store := store, effects := [] }
  else if ¬ app.shouldSetCookie session then
    { store := store, effects := [] }
  else
    let httponly := app.cookieHttponly
    let secure := app.cookieSecure
    let expires := app.getExpirationTime session
    let val := itf.serializer.dumps session.contents
    let cookieEff := Effect.setCookie app.sessionCookieName session.sid expires
      httponly secure domain path (app.samesiteConfig.getD "Strict")
    match saved with
    | some rec =>
      { store := updateFirst store sid
          (fun r => { r with data := val, expiry := some expires }),
        effects := [Effect.storeUpdate rec.id, Effect.storeCommit, cookieEff] }
    | none =>
      let newRec : SessionRecord :=
        { id := itf.nextId, session_id := session.sid, expires_at := expires,
          data := val, user_id := none, expiry := none }
      { store := store ++ [newRec],
        effects := [Effect.storeAdd newRec, Effect.storeCommit, cookieEff] }

/-! ### Concrete instances used by witnesses and counterexamples -/

/-- A serializer whose round trip holds at the mapping used below:
`dumps` emits the token `"blob"` and `loads "blob"` recovers the mapping. -/
def egSerializer : Serializer :=
  { dumps := fun _ => "blob", loads := fun _ => some [("user", PyVal.str "bob")] }

/-- A serializer whose `loads` always raises (decode failure). -/
def egFailSerializer : Serializer :=
  { dumps := fun _ => "blob", loads := fun _ => none }

/-- Interface with no `permanent` default. -/
def egItf : Interface :=
  { permanent := none, serializer := egSerializer,
    nextId := "RID", nextSessionId := "NEWSID" }

/-- Interface configured with a truthy `permanent` default. -/
def egItfPerm : Interface :=
  { egItf with permanent := some true }

/-- Interface with truthy `permanent` default and a failing decoder. -/
def egItfPermFail : Interface :=
  { egItf with permanent := some true, serializer := egFailSerializer }

/-- Interface with a failing decoder and no `permanent` default. -/
def egItfFail : Interface :=
  { egItf with serializer := egFailSerializer }

/-- App state: current time 0, computed expiry 100, gate always passes. -/
def egApp : App :=
  { sessionCookieName := "session", cookieDomain := none, cookiePath := "/",
    cookieHttponly := true, cookieSecure := false, samesiteConfig := none,
    getExpirationTime := fun _ => some 100, shouldSetCookie := fun _ => true,
    now := 0 }

/-- The same app observed later, at time 50 (before expiry 100). -/
def egApp50 : App :=
  { egApp with now := 50 }

/-- App whose cookie-emission gate always refuses. -/
def egAppNoGate : App :=
  { egApp with shouldSetCookie := fun _ => false }

/-- A stored record for sid `"B"` that expired at time -5. -/
def egRecExpired : SessionRecord :=
  { id := "R1", session_id := "B", expires_at := some (-5), data := "blob",
    user_id := none, expiry := none }

/-- An unexpired stored record for sid `"C"` with an undecodable payload. -/
def egRecCorrupt : SessionRecord :=
  { id := "R2", session_id := "C", expires_at := some 100, data := "corrupt",
    user_id := none, expiry := none }

/-- An unexpired stored record for sid `"D"` expiring at time 7. -/
def egRecLive : SessionRecord :=
  { id := "R3", session_id := "D", expires_at := some 7, data := "old",
    user_id := none, expiry := none }

/-! ### Helper lemmas about the store -/

/-- Looking up `sid` after an in-place update of the first `sid` row sees
the updated row, provided the update keeps `session_id`. -/
theorem findFirst_updateFirst (store : Store) (sid : String)
    (f : SessionRecord → SessionRecord) (hf : ∀ r, (f r).session_id = r.session_id) :
    findFirst (updateFirst store sid f) sid = (findFirst store sid).map f := by
  induction store with
  | nil => rfl
  | cons r rs ih =>
    by_cases h : r.session_id = sid
    · simp [updateFirst, findFirst, h, hf r]
    · simp only [updateFirst, findFirst, if_neg h] at ih ⊢
      rw [List.find?_cons_of_neg _ (by simpa using h),
        List.find?_cons_of_neg _ (by simpa [hf r] using h)]
      exact ih

/-- Appending a fresh row for `sid` to a store holding none makes it the
lookup result. -/
theorem findFirst_append_fresh (store : Store) (sid : String) (rec : SessionRecord)
    (h : findFirst store sid = none) (hrec : rec.session_id = sid) :
    findFirst (store ++ [rec]) sid = some rec := by
  simp only [findFirst] at h ⊢
  simp [List.find?_append, h, hrec]

/-! ### Claim theorems -/

/-- C5: for every save where the session's contents are empty and its
modified flag is true, the save phase deletes the existing record for
that sid (if one exists) and commits, instructs the response to clear
the session cookie on the configured domain and path, and performs no
further store writes or cookie operations afterwards. -/
theorem C5_empty_modified_deletes_and_clears (itf : Interface) (app : App)
    (session : ServerSideSession) (store : Store)
    (hempty : session.contents = []) (hmod : session.modified = true) :
    (∀ rec, findFirst store session.sid = some rec →
      saveSession itf app session store =
        { store := deleteRecord store rec.id,
          effects := [Effect.storeDelete rec.id, Effect.storeCommit,
            Effect.deleteCookie app.sessionCookieName app.cookieDomain app.cookiePath] }) ∧
    (findFirst store session.sid = none →
      saveSession itf app session store =
        { store := store,
          effects := [Effect.deleteCookie app.sessionCookieName app.cookieDomain app.cookiePath] }) := by
  refine ⟨fun rec hrec => ?_, fun hrec => ?_⟩ <;>
    simp [saveSession, hempty, hmod, hrec]

/-- C5 witness: evaluated at a concrete empty-but-modified session with a
record present. -/
theorem C5_witness :
    saveSession egItf egApp ⟨"B", [], true⟩ [egRecExpired] =
      { store := [],
        effects := [Effect.storeDelete "R1", Effect.storeCommit,
          Effect.deleteCookie "session" none "/"] } :=
  (C5_empty_modified_deletes_and_clears egItf egApp ⟨"B", [], true⟩ [egRecExpired]
    rfl rfl).1 egRecExpired rfl

/-- C6: for every save where the session's contents are empty and its
modified flag is false, the save phase performs zero store writes and
zero cookie operations. -/
theorem C6_untouched_empty_noop (itf : Interface) (app : App)
    (session : ServerSideSession) (store : Store)
    (hempty : session.contents = []) (hmod : session.modified = false) :
    saveSession itf app session store = { store := store, effects := [] } := by
  simp [saveSession, hempty, hmod]

/-- C6 witness: a freshly minted untouched session leaves store and
response untouched. -/
theorem C6_witness :
    saveSession egItf egApp ⟨"A", [], false⟩ [egRecLive] =
      { store := [egRecLive], effects := [] } :=
  C6_untouched_empty_noop egItf egApp ⟨"A", [], false⟩ [egRecLive] rfl rfl

/-- C7: for every save of a non-empty session where the cookie-emission
gate refuses, the save phase performs no store write and sets no
cookie. -/
theorem C7_gate_denies_noop (itf : Interface) (app : App)
    (session : ServerSideSession) (store : Store)
    (hne : session.contents ≠ []) (hgate : app.shouldSetCookie session = false) :
    saveSession itf app session store = { store := store, effects := [] } := by
  simp [saveSession, hgate, List.isEmpty_iff, hne]

/-- C7 witness: a non-empty unmodified session under a refusing gate. -/
theorem C7_witness :
    saveSession egItf egAppNoGate ⟨"D", [("k", PyVal.int 1)], false⟩ [egRecLive] =
      { store := [egRecLive], effects := [] } :=
  C7_gate_denies_noop egItf egAppNoGate ⟨"D", [("k", PyVal.int 1)], false⟩ [egRecLive]
    (by decide) rfl

/-- C8: for every save of a non-empty session that passes the gate with
no existing record, the save phase inserts a new record whose id comes
from the id-minting callable, whose session_id is the session's sid,
whose data is the serialized contents and whose expires_at is the
computed expiry, commits, and then sets the response cookie with the
configured name, value `session.sid`, the computed expiry, the
configured httponly/secure/domain/path, and samesite from configuration
defaulting to `"Strict"`. -/
theorem C8_insert_and_set_cookie (itf : Interface) (app : App)
    (session : ServerSideSession) (store : Store)
    (hne : session.contents ≠ []) (hgate : app.shouldSetCookie session = true)
    (hnone : findFirst store session.sid = none) :
    saveSession itf app session store =
      { store := store ++
          [{ id := itf.nextId, session_id := session.sid,
             expires_at := app.getExpirationTime session,
             data := itf.serializer.dumps session.contents,
             user_id := none, expiry := none }],
        effects := [Effect.storeAdd
            { id := itf.nextId, session_id := session.sid,
              expires_at := app.getExpirationTime session,
              data := itf.serializer.dumps session.contents,
              user_id := none, expiry := none },
          Effect.storeCommit,
          Effect.setCookie app.sessionCookieName session.sid
            (app.getExpirationTime session) app.cookieHttponly app.cookieSecure
            app.cookieDomain app.cookiePath (app.samesiteConfig.getD "Strict")] } := by
  simp [saveSession, hgate, List.isEmpty_iff, hne, hnone]

/-- C8 witness: the no-cookie scenario, saving `user ↦ bob` under sid
`"A"` into an empty store. -/
theorem C8_witness :
    saveSession egItf egApp ⟨"A", [("user", PyVal.str "bob")], true⟩ [] =
      { store := [{ id := "RID", session_id := "A", expires_at := some 100,
                    data := "blob", user_id := none, expiry := none }],
        effects := [Effect.storeAdd
            { id := "RID", session_id := "A", expires_at := some 100,
              data := "blob", user_id := none, expiry := none },
          Effect.storeCommit,
          Effect.setCookie "session" "A" (some 100) true false none "/" "Strict"] } :=
  C8_insert_and_set_cookie egItf egApp ⟨"A", [("user", PyVal.str "bob")], true⟩ []
    (by decide) rfl rfl

/-- C9 counterexample: the claim says every Session Object freshly
constructed by the open phase starts with `modified = false`, but on the
no-cookie path with a truthy configured `permanent` default the
`_permanent` write during construction leaves `modified = true`. -/
theorem C9_counterexample :
    openSession egItfPerm egApp none [] =
      some ⟨⟨"NEWSID", [("_permanent", PyVal.bool true)], true⟩, [], []⟩ := rfl

/-- C9 amended: every structural mutation of the contents (set, delete,
clear) sets the modified flag to true and reads never change the session;
a session constructed with an absent or falsy permanent argument (as on
the decode-success path, and on the fresh paths when the configured
default is falsy) starts with `modified = false`, while a truthy
permanent argument leaves `modified = true` at construction. -/
theorem C9_dirty_tracking :
    (∀ s k v, (sessionSet s k v).modified = true) ∧
    (∀ s k, (sessionDel s k).modified = true) ∧
    (∀ s, (sessionClear s).modified = true) ∧
    (∀ s k, (sessionRead s k).2 = s) ∧
    (∀ sid initial, (sessionInit sid initial none).modified = false) ∧
    (∀ sid initial, (sessionInit sid initial (some false)).modified = false) ∧
    (∀ sid initial, (sessionInit sid initial (some true)).modified = true) := by
  refine ⟨fun s k v => rfl, fun s k => rfl, fun s => rfl, fun s k => rfl,
    fun sid initial => rfl, fun sid initial => rfl, fun sid initial => rfl⟩

/-- C10: constructing a session with a truthy permanent argument stores
the `_permanent` key through the mutation callback, so the resulting
"fresh empty" session has non-empty contents and `modified = true`; with
a falsy or absent permanent argument the contents stay empty and
`modified = false`; and the open phase's no-cookie path builds its
session exactly this way from the configured default. -/
theorem C10_permanent_marker (sid : String) :
    (sessionInit sid none (some true)).contents = [("_permanent", PyVal.bool true)] ∧
    (sessionInit sid none (some true)).modified = true ∧
    (sessionInit sid none none).contents = [] ∧
    (sessionInit sid none none).modified = false ∧
    (sessionInit sid none (some false)).contents = [] ∧
    (sessionInit sid none (some false)).modified = false ∧
    (∀ itf app store, openSession itf app none store =
      some ⟨sessionInit itf.nextSessionId none itf.permanent, store, []⟩) := by
  refine ⟨rfl, rfl, rfl, rfl, rfl, rfl, fun itf app store => rfl⟩

/-- C2 counterexample: the claim says the expired-record path returns a
fresh EMPTY session, but with a truthy configured `permanent` default the
returned session's contents hold the `_permanent` marker (and its
modified flag is true); the deletion, commit and sid reuse do happen. -/
theorem C2_counterexample :
    openSession egItfPerm egApp (some "B") [egRecExpired] =
      some ⟨⟨"B", [("_permanent", PyVal.bool true)], true⟩, [],
        [Effect.storeDelete "R1", Effect.storeCommit]⟩ := rfl

/-- C2 amended: when the cookie is present and the store's first record
for it has `expires_at` at or before the current time, open deletes that
record, commits the deletion, and returns a fresh session bound to the
same sid from the cookie (no new identifier is minted) whose contents
are empty when the configured permanent default is not truthy and hold
exactly the `_permanent` marker otherwise. -/
theorem C2_expired_record_deleted (itf : Interface) (app : App) (s : String)
    (store : Store) (rec : SessionRecord) (e : Int)
    (hs : s ≠ "") (hfind : findFirst store s = some rec)
    (hexp : rec.expires_at = some e) (hle : e ≤ app.now) :
    openSession itf app (some s) store =
      some ⟨sessionInit s none itf.permanent, deleteRecord store rec.id,
        [Effect.storeDelete rec.id, Effect.storeCommit]⟩ ∧
    (sessionInit s none itf.permanent).sid = s ∧
    (itf.permanent ≠ some true → (sessionInit s none itf.permanent).contents = []) ∧
    (itf.permanent = some true →
      (sessionInit s none itf.permanent).contents = [("_permanent", PyVal.bool true)]) := by
  refine ⟨?_, ?_, ?_, ?_⟩
  · simp [openSession, hs, hfind, hexp, hle]
  · match hp : itf.permanent with
    | none => rfl
    | some false => rfl
    | some true => rfl
  · intro hp
    match hq : itf.permanent with
    | none => rfl
    | some false => rfl
    | some true => exact absurd hq hp
  · intro hp
    rw [hp]
    rfl

/-- C2 witness: expired record for sid `"B"`, permanent default absent:
the record is deleted, committed, and an empty session with sid `"B"`
comes back. -/
theorem C2_witness :
    openSession egItf egApp (some "B") [egRecExpired] =
      some ⟨sessionInit "B" none none, [],
        [Effect.storeDelete "R1", Effect.storeCommit]⟩ ∧
    (sessionInit "B" none none).sid = "B" ∧
    ((egItf.permanent ≠ some true) → (sessionInit "B" none none).contents = []) ∧
    (egItf.permanent = some true →
      (sessionInit "B" none none).contents = [("_permanent", PyVal.bool true)]) :=
  C2_expired_record_deleted egItf egApp "B" [egRecExpired] egRecExpired (-5)
    (by decide) rfl rfl (by decide)

/-- C4 counterexample: the claim says the decode-failure path returns a
fresh EMPTY session bound to a newly minted sid, but with a truthy
configured `permanent` default the returned session's contents hold the
`_permanent` marker; the new sid and the untouched store do hold. -/
theorem C4_counterexample :
    openSession egItfPermFail egApp (some "C") [egRecCorrupt] =
      some ⟨⟨"NEWSID", [("_permanent", PyVal.bool true)], true⟩,
        [egRecCorrupt], []⟩ := rfl

/-- C4 amended: when an unexpired record is found but the serializer's
`loads` raises on its data, open does not propagate the error: it
returns a fresh session bound to a newly minted session id (not the
cookie's sid), the store is left unchanged (the corrupt record is not
deleted) and no store effect is issued; the fresh session's contents are
empty when the configured permanent default is not truthy and hold
exactly the `_permanent` marker otherwise. -/
theorem C4_decode_failure_recovery (itf : Interface) (app : App) (s : String)
    (store : Store) (rec : SessionRecord) (e : Int)
    (hs : s ≠ "") (hfind : findFirst store s = some rec)
    (hexp : rec.expires_at = some e) (hnow : app.now < e)
    (hload : itf.serializer.loads rec.data = none) :
    openSession itf app (some s) store =
      some ⟨sessionInit itf.nextSessionId none itf.permanent, store, []⟩ ∧
    (sessionInit itf.nextSessionId none itf.permanent).sid = itf.nextSessionId ∧
    (itf.permanent ≠ some true →
      (sessionInit itf.nextSessionId none itf.permanent).contents = []) ∧
    (itf.permanent = some true →
      (sessionInit itf.nextSessionId none itf.permanent).contents =
        [("_permanent", PyVal.bool true)]) := by
  refine ⟨?_, ?_, ?_, ?_⟩
  · simp [openSession, hs, hfind, hexp, hload, not_le.mpr hnow]
  · match hp : itf.permanent with
    | none => rfl
    | some false => rfl
    | some true => rfl
  · intro hp
    match hq : itf.permanent with
    | none => rfl
    | some false => rfl
    | some true => exact absurd hq hp
  · intro hp
    rw [hp]
    rfl

/-- C4 witness: unexpired corrupt record for sid `"C"`, failing decoder,
permanent default absent: a fresh empty session with the newly minted
sid comes back and the store is untouched. -/
theorem C4_witness :
    openSession egItfFail egApp (some "C") [egRecCorrupt] =
      some ⟨sessionInit "NEWSID" none none, [egRecCorrupt], []⟩ ∧
    (sessionInit "NEWSID" none none).sid = "NEWSID" ∧
    ((egItfFail.permanent ≠ some true) → (sessionInit "NEWSID" none none).contents = []) ∧
    (egItfFail.permanent = some true →
      (sessionInit "NEWSID" none none).contents = [("_permanent", PyVal.bool true)]) :=
  C4_decode_failure_recovery egItfFail egApp "C" [egRecCorrupt] egRecCorrupt 100
    (by decide) rfl rfl (by decide) rfl

/-- C3: saving `k ↦ 1` for sid `"D"` over an existing record whose
`expires_at` is 7 while the computed expiry is 100: the update branch
assigns `saved_session.expiry = expires` instead of the declared column
`expires_at`, so the stored row keeps the stale `expires_at = 7` (the
computed value 100 lands in the undeclared `expiry` attribute), the
row's `data` is updated, and the change is committed. -/
theorem C3_expires_at_not_recomputed :
    (saveSession egItf egApp ⟨"D", [("k", PyVal.int 1)], true⟩ [egRecLive]).store =
      [{ id := "R3", session_id := "D", expires_at := some 7, data := "blob",
         user_id := none, expiry := some (some 100) }] ∧
    egApp.getExpirationTime ⟨"D", [("k", PyVal.int 1)], true⟩ = some 100 ∧
    (saveSession egItf egApp ⟨"D", [("k", PyVal.int 1)], true⟩ [egRecLive]).effects =
      [Effect.storeUpdate "R3", Effect.storeCommit,
        Effect.setCookie "session" "D" (some 100) true false none "/" "Strict"] ∧
    some (7 : Int) ≠ some (100 : Int) := by
  refine ⟨rfl, rfl, rfl, by decide⟩

/-- C1: for every session saved with non-empty contents through a passing
gate (so the save phase wrote a record), opening a request with the same
cookie value at a time strictly before the stored record's expiry, with
a serializer whose round trip holds at the saved contents, returns a
session whose contents equal the saved contents and whose modified flag
is false (and performs no store effect). -/
theorem C1_saved_reopen_roundtrip (itf : Interface) (app app2 : App)
    (sess : ServerSideSession) (store : Store) (rec : SessionRecord) (e : Int)
    (hsid : sess.sid ≠ "")
    (hne : sess.contents ≠ [])
    (hgate : app.shouldSetCookie sess = true)
    (hrt : itf.serializer.loads (itf.serializer.dumps sess.contents) = some sess.contents)
    (hfind : findFirst (saveSession itf app sess store).store sess.sid = some rec)
    (hexp : rec.expires_at = some e)
    (hnow : app2.now < e) :
    openSession itf app2 (some sess.sid) (saveSession itf app sess store).store =
      some ⟨⟨sess.sid, sess.contents, false⟩, (saveSession itf app sess store).store, []⟩ := by
  have hdata : rec.data = itf.serializer.dumps sess.contents := by
    cases hsaved : findFirst store sess.sid with
    | some r0 =>
      have hstore : (saveSession itf app sess store).store =
          updateFirst store sess.sid
            (fun r => { r with data := itf.serializer.dumps sess.contents,
                               expiry := some (app.getExpirationTime sess) }) := by
        simp [saveSession, List.isEmpty_iff, hne, hgate, hsaved]
      rw [hstore, findFirst_updateFirst store sess.sid
        (fun r => { r with data := itf.serializer.dumps sess.contents,
                           expiry := some (app.getExpirationTime sess) })
        (fun r => rfl), hsaved] at hfind
      simp only [Option.map_some', Option.some.injEq] at hfind
      rw [← hfind]
    | none =>
      have hstore : (saveSession itf app sess store).store =
          store ++
            [{ id := itf.nextId, session_id := sess.sid,
               expires_at := app.getExpirationTime sess,
               data := itf.serializer.dumps sess.contents,
               user_id := none, expiry := none }] := by
        simp [saveSession, List.isEmpty_iff, hne, hgate, hsaved]
      rw [hstore, findFirst_append_fresh store sess.sid _ hsaved rfl] at hfind
      simp only [Option.some.injEq] at hfind
      rw [← hfind]
  simp [openSession, hsid, hfind, hexp, not_le.mpr hnow, hdata, hrt, sessionInit]

/-- C1 witness: the full scenario at concrete inputs — sid `"A"`,
contents `user ↦ bob`, saved into an empty store at time 0 with expiry
100, reopened at time 50. -/
theorem C1_witness :
    openSession egItf egApp50 (some "A")
        (saveSession egItf egApp ⟨"A", [("user", PyVal.str "bob")], true⟩ []).store =
      some ⟨⟨"A", [("user", PyVal.str "bob")], false⟩,
        (saveSession egItf egApp ⟨"A", [("user", PyVal.str "bob")], true⟩ []).store, []⟩ :=
  C1_saved_reopen_roundtrip egItf egApp egApp50 ⟨"A", [("user", PyVal.str "bob")], true⟩ []
    { id := "RID", session_id := "A", expires_at := some 100, data := "blob",
      user_id := none, expiry := none } 100
    (by decide) (by decide) rfl rfl rfl rfl (by decide)
